import Mathlib

/-!
Verification of the table-comparison client of the all_in_one_datatools
repository. The definitions below are shallow embeddings of the pure
decision logic of the frontend: the Compare page submission handlers,
the key-candidate suggestion effect guard, the run-polling guard, the
validation-error summary rendering, the stored-run column-pair parser,
and the JSON-tolerant POST helper in api.ts.
-/

/-- Model of JavaScript `String.prototype.trim`: strip leading and
trailing whitespace. Defined structurally over the character list so
that it evaluates on concrete inputs. -/
def jsTrim (s : String) : String :=
  ⟨((s.data.dropWhile Char.isWhitespace).reverse.dropWhile Char.isWhitespace).reverse⟩

/-- Model of JavaScript `String.prototype.includes` for a single
character separator. -/
def jsIncludes (sep : Char) (s : String) : Bool :=
  s.data.contains sep

/-- Model of JavaScript `String.prototype.split` with a single
character separator. -/
def jsSplit (sep : Char) (s : String) : List String :=
  (s.data.splitOn sep).map fun cs => ⟨cs⟩

/-- Model of JavaScript `String.prototype.slice(0, stop)`. -/
def jsSlice (s : String) (stop : Nat) : String :=
  ⟨s.data.take stop⟩

/-- Row describing a table, as listed by the asset service
(src/frontend/src/types.ts); only the fields the comparison logic
reads are modelled. -/
structure TableRow where
  env_schema : String
  table_name : String
deriving DecidableEq

/-- Pair of a left and a right column name (Compare page). -/
structure ColumnPair where
  left : String
  right : String
deriving DecidableEq

/-- Result of trimming one pair: `some` of the trimmed pair when both
sides are non-empty after trimming, otherwise `none` (the pair is
dropped). Embeds `sanitizePair` of the Compare page `handleSubmit`. -/
def sanitizePair (p : ColumnPair) : Option ColumnPair :=
  let l := jsTrim p.left
  let r := jsTrim p.right
  if l ≠ "" ∧ r ≠ "" then some ⟨l, r⟩ else none

/-- Sanitization of a whole pair list: `map sanitizePair` followed by
dropping the `null` entries, as in `handleSubmit`. -/
def sanitizePairs (ps : List ColumnPair) : List ColumnPair :=
  ps.filterMap sanitizePair

/-- Trimming both components of a pair (used to state order
preservation of `sanitizePairs`). -/
def trimPair (p : ColumnPair) : ColumnPair :=
  ⟨jsTrim p.left, jsTrim p.right⟩

/-- Payload the pair-based Compare page hands to the run endpoint. -/
structure ComparePayload where
  left_table : String
  right_table : String
  left_env_schema : String
  right_env_schema : String
  join_keys : List String
  join_key_pairs : List ColumnPair
  compare_column_pairs : Option (List ColumnPair)
  sample_limit : Int
  left_pt : Option String
  right_pt : Option String
deriving DecidableEq

/-- Outcome of the Compare page submit handler: either an error toast
(no run is started) or a payload submitted to the run endpoint. -/
inductive SubmitResult where
  | error (msg : String)
  | submit (payload : ComparePayload)
deriving DecidableEq

/-- Shallow embedding of `handleSubmit` of the pair-based Compare page
(src/unnamed/part_000, lines 606-641): sanitize the join-key pairs,
refuse with an error when none survive, otherwise build the payload. -/
def handleSubmit (leftTable rightTable : Option TableRow) (leftPt rightPt : String)
    (joinKeyPairs compareColumnPairs : List ColumnPair) (sampleLimit : Int) :
    SubmitResult :=
  match leftTable, rightTable with
  | some lt, some rt =>
    let leftPtTrim := jsTrim leftPt
    let rightPtTrim := jsTrim rightPt
    let validJoinPairs := joinKeyPairs.filterMap sanitizePair
    if validJoinPairs = [] then
      SubmitResult.error "Add at least one join key pair (left column ↔ right column)."
    else
      let validComparePairs := compareColumnPairs.filterMap sanitizePair
      SubmitResult.submit {
        left_table := lt.table_name
        right_table := rt.table_name
        left_env_schema := lt.env_schema
        right_env_schema := rt.env_schema
        join_keys := validJoinPairs.map ColumnPair.left
        join_key_pairs := validJoinPairs
        compare_column_pairs :=
          if validComparePairs = [] then none else some validComparePairs
        sample_limit := sampleLimit
        left_pt := if leftPtTrim = "" then none else some leftPtTrim
        right_pt := if rightPtTrim = "" then none else some rightPtTrim }
  | _, _ => SubmitResult.error "Select both tables."

/-- Action the pair-based Compare page's column-loading effect takes
after both tables are picked (src/unnamed/part_000, lines 527-561):
clear all selection state, or fetch the column lists of both tables. -/
inductive ColumnsAction where
  | clear
  | fetchColumns (lt rt : TableRow)
deriving DecidableEq

/-- Shallow embedding of the column-loading effect guard of the
pair-based Compare page: the same-table check compares only
environment schema and table name. -/
def columnsEffect (leftTable rightTable : Option TableRow) : ColumnsAction :=
  match leftTable, rightTable with
  | some lt, some rt =>
    if lt.env_schema = rt.env_schema ∧ lt.table_name = rt.table_name then
      ColumnsAction.clear
    else
      ColumnsAction.fetchColumns lt rt
  | _, _ => ColumnsAction.clear

/-- Dedup key used by `autoMatchSimilarNames`: the string
`left ++ ":" ++ right`. -/
def pairKey (p : ColumnPair) : String :=
  p.left ++ ":" ++ p.right

/-- Pairs proposed by `autoMatchSimilarNames` (src/unnamed/part_000,
lines 591-604): every column name common to both tables, self-paired. -/
def autoPairs (leftColumns rightColumns : List String) : List ColumnPair :=
  (leftColumns.filter fun c => rightColumns.contains c).map fun c => ⟨c, c⟩

/-- State update applied by `autoMatchSimilarNames` to the existing
compare-column pairs: append only the proposed pairs whose
`left:right` key is not already present. -/
def autoMatchMerge (prev pairs : List ColumnPair) : List ColumnPair :=
  let existing := prev.map pairKey
  prev ++ pairs.filter fun p => !(existing.contains (pairKey p))

/-- Payload the legacy (suggestion-based) Compare page posts to
`/compare/run` (src/unnamed/part_001, lines 155-165). -/
structure LegacyComparePayload where
  left_table : String
  right_table : String
  left_pt : String
  right_pt : String
  left_env_schema : String
  right_env_schema : String
  join_keys : List String
  compare_columns : Option (List String)
  sample_limit : Int
deriving DecidableEq

/-- Outcome of the legacy Compare page's submit handler. -/
inductive LegacySubmitResult where
  | error (msg : String)
  | run (payload : LegacyComparePayload)
deriving DecidableEq

/-- Shallow embedding of `handleSubmit` of the legacy Compare page
(src/unnamed/part_001, lines 136-173). `compareColumns` models the
`Record<string, boolean>` in entry order. -/
def handleSubmitLegacy (leftTable rightTable : Option TableRow) (leftPt rightPt : String)
    (joinKeys : List String) (compareColumns : List (String × Bool)) (sampleLimit : Int) :
    LegacySubmitResult :=
  match leftTable, rightTable with
  | some lt, some rt =>
    let leftPtTrim := jsTrim leftPt
    let rightPtTrim := jsTrim rightPt
    if leftPtTrim = "" ∨ rightPtTrim = "" then
      LegacySubmitResult.error
        "PT is required for both tables (e.g. 20260101 for daily, 2026010123 for hourly)."
    else if joinKeys = [] then
      LegacySubmitResult.error "Select at least one join key."
    else
      let cols := (compareColumns.filter fun e => e.2).map fun e => e.1
      LegacySubmitResult.run
        { left_table := lt.table_name
          right_table := rt.table_name
          left_pt := leftPtTrim
          right_pt := rightPtTrim
          left_env_schema := lt.env_schema
          right_env_schema := rt.env_schema
          join_keys := joinKeys
          compare_columns := if cols = [] then none else some cols
          sample_limit := sampleLimit }
  | _, _ => LegacySubmitResult.error "Select both tables."

/-- Payload of a `/compare/suggest-keys` request
(src/unnamed/part_001, lines 94-102). -/
structure SuggestKeysPayload where
  left_table : String
  right_table : String
  left_pt : String
  right_pt : String
  left_env_schema : String
  right_env_schema : String
  max_candidates : Nat
deriving DecidableEq

/-- Action taken by the legacy Compare page's suggestion effect:
either clear the candidate list (and selections) without any request,
or issue the suggest-keys request. -/
inductive SuggestAction where
  | clear
  | request (payload : SuggestKeysPayload)
deriving DecidableEq

/-- Shallow embedding of the suggest-keys effect guard
(src/unnamed/part_001, lines 72-124): candidates are cleared when a
table is missing, when either partition token trims to empty, or when
the same-table check (environment schema and table name only) fires;
otherwise the request is issued with the trimmed tokens and
`max_candidates := 50`. -/
def suggestEffect (leftTable rightTable : Option TableRow) (leftPt rightPt : String) :
    SuggestAction :=
  match leftTable, rightTable with
  | some lt, some rt =>
    let lp := jsTrim leftPt
    let rp := jsTrim rightPt
    if lp = "" ∨ rp = "" then SuggestAction.clear
    else if lt.env_schema = rt.env_schema ∧ lt.table_name = rt.table_name then
      SuggestAction.clear
    else
      SuggestAction.request
        { left_table := lt.table_name
          right_table := rt.table_name
          left_pt := lp
          right_pt := rp
          left_env_schema := lt.env_schema
          right_env_schema := rt.env_schema
          max_candidates := 50 }
  | _, _ => SuggestAction.clear

/-- Status of a listed run (CompareRuns/ValidateRuns pages). -/
inductive RunStatus where
  | pending
  | completed
  | error
deriving DecidableEq

/-- Listed run row; of the fields of the `CompareRun` interface only
those the polling logic reads are modelled. -/
structure CompareRun where
  id : Nat
  status : RunStatus
deriving DecidableEq

/-- Whether some listed run is still pending
(`runs.some((r) => r.status === 'pending')`). -/
def hasPending (runs : List CompareRun) : Bool :=
  runs.any fun r => r.status == RunStatus.pending

/-- Polling decision of the CompareRuns page (lines 161-166) and the
ValidateRuns page (lines 118-123): while some run is pending, reload
the run list every 2000 ms; otherwise no interval is installed. -/
def pollIntervalMs (runs : List CompareRun) : Option Nat :=
  if hasPending runs then some 2000 else none

/-- Entry of a structured validation-error `detail` list as the client
receives it; either field may be absent. -/
structure DetailEntry where
  loc : Option (List String)
  msg : Option String
deriving DecidableEq

/-- Field path of a `loc` list: the elements other than `"body"`
joined by `"."`. -/
def fieldPath (l : List String) : String :=
  String.intercalate "." (l.filter fun x => x != "body")

/-- Rendering of one detail entry by the submit error mapping of
CompareRuns (lines 128-131) and ValidateRuns (lines 101-104):
`loc: msg` when the filtered path is non-empty, the message alone
otherwise, with `"error"` substituted for a missing message. -/
def renderDetailEntry (e : DetailEntry) : String :=
  let locStr :=
    match e.loc with
    | some l => fieldPath l
    | none => ""
  let m := e.msg.getD "error"
  if locStr ≠ "" then locStr ++ ": " ++ m else m

/-- Summary composed from a structured detail list: the rendered
entries joined by `"; "`. -/
def renderDetail (detail : List DetailEntry) : String :=
  String.intercalate "; " (detail.map renderDetailEntry)

/-- Summary as the specification words it, for entries that carry both
a field path and a message: the `field: message` renderings of all
entries joined by `"; "`, where the field path is the `loc` elements
excluding `"body"` joined by `"."`, and an entry with an empty path
contributes its message alone. -/
def claimedSummary (entries : List (List String × String)) : String :=
  String.intercalate "; " (entries.map fun e =>
    let f := fieldPath e.1
    if f = "" then e.2 else f ++ ": " ++ e.2)

/-- Shallow embedding of `parseColumnPair` logic inside
`parseColumnPairs` (CompareRuns, lines 59-68): an entry containing a
`:` splits into its first two segments, an entry without `:` is
self-paired. -/
def parseColumnPair (s : String) : ColumnPair :=
  if jsIncludes ':' s then
    match jsSplit ':' s with
    | l :: r :: _ => ⟨l, r⟩
    | [l] => ⟨l, ""⟩
    | [] => ⟨"", ""⟩
  else ⟨s, s⟩

/-- Shallow embedding of `parseColumnPairs` (CompareRuns, lines
59-68); the `undefined`/empty early return coincides with mapping
over the empty list. -/
def parseColumnPairs (arr : List String) : List ColumnPair :=
  arr.map parseColumnPair

/-- HTTP response as the `api` helper observes it. -/
structure HttpResponse where
  ok : Bool
  status : Nat
  statusText : String
  body : String
deriving DecidableEq

/-- JSON value held by an `api` result: the empty object used for an
empty body, a successfully parsed body, or the fallback object whose
`detail` field carries the constructed message. -/
inductive ApiJson where
  | emptyObj
  | parsed (body : String)
  | detailObj (detail : String)
deriving DecidableEq

/-- Structured result of the `api` helper. -/
structure ApiResult where
  ok : Bool
  json : ApiJson
deriving DecidableEq

/-- Shallow embedding of the POST helper `api`
(src/frontend/src/api.ts, lines 3-19). `parseOk` abstracts whether
`JSON.parse` succeeds on the body text. -/
def api (parseOk : String → Bool) (res : HttpResponse) : ApiResult :=
  let text := res.body
  let json :=
    if text = "" then ApiJson.emptyObj
    else if parseOk text then ApiJson.parsed text
    else
      ApiJson.detailObj
        (if res.ok then "Invalid response from server"
         else toString res.status ++ " " ++ res.statusText ++ " - " ++ jsSlice text 200)
  ⟨res.ok, json⟩

/-- Initial value of the sample-limit state (`useState(50)`,
src/unnamed/part_000 line 487). -/
def initialSampleLimit : Int := 50

/-- Declared `min` attribute of the sample-limit input
(src/unnamed/part_000 line 826). -/
def sampleLimitInputMin : Int := 1

/-- Declared `max` attribute of the sample-limit input
(src/unnamed/part_000 line 827). -/
def sampleLimitInputMax : Int := 1000

/-- C1: a comparison submission whose join-key pair list is empty
after trimming fails with a validation error naming the join keys,
and no run is created: the pair-based page returns the join-key error
instead of navigating to the run submission, and the legacy page
(given both partition tokens) returns its join-key error instead of
calling the run endpoint. -/
theorem C1_empty_join_keys_refused :
    (∀ (lt rt : TableRow) (leftPt rightPt : String) (jkp ccp : List ColumnPair) (sl : Int),
      jkp.filterMap sanitizePair = [] →
      handleSubmit (some lt) (some rt) leftPt rightPt jkp ccp sl =
        SubmitResult.error "Add at least one join key pair (left column ↔ right column).") ∧
    (∀ (lt rt : TableRow) (lp rp : String) (cc : List (String × Bool)) (sl : Int),
      jsTrim lp ≠ "" → jsTrim rp ≠ "" →
      handleSubmitLegacy (some lt) (some rt) lp rp [] cc sl =
        LegacySubmitResult.error "Select at least one join key.") := by
  constructor
  · intro lt rt leftPt rightPt jkp ccp sl h
    simp [handleSubmit, h]
  · intro lt rt lp rp cc sl h1 h2
    simp [handleSubmitLegacy, h1, h2]

/-- Witness for C1 at concrete inputs. -/
theorem C1_empty_join_keys_refused_witness :
    handleSubmit (some ⟨"dev", "t1"⟩) (some ⟨"prod", "t2"⟩) "" "" [⟨" ", "x"⟩] [] 50 =
      SubmitResult.error "Add at least one join key pair (left column ↔ right column)." ∧
    handleSubmitLegacy (some ⟨"dev", "t1"⟩) (some ⟨"prod", "t2"⟩) "20260101" "20260102" [] [] 50 =
      LegacySubmitResult.error "Select at least one join key." :=
  ⟨C1_empty_join_keys_refused.1 ⟨"dev", "t1"⟩ ⟨"prod", "t2"⟩ "" "" [⟨" ", "x"⟩] [] 50 (by decide),
   C1_empty_join_keys_refused.2 ⟨"dev", "t1"⟩ ⟨"prod", "t2"⟩ "20260101" "20260102" [] 50
     (by decide) (by decide)⟩

/-- C2 counterexample: selecting the same environment and table name
with two different partition tokens is rejected (candidates cleared,
no suggest-keys request, column lists cleared), although the claim
says selections differing only in partition token are accepted. -/
theorem C2_counterexample :
    suggestEffect (some ⟨"dev", "t"⟩) (some ⟨"dev", "t"⟩) "20260101" "20260102" =
      SuggestAction.clear ∧
    columnsEffect (some ⟨"dev", "t"⟩) (some ⟨"dev", "t"⟩) = ColumnsAction.clear ∧
    ("20260101" : String) ≠ "20260102" :=
  ⟨by decide, by decide, by decide⟩

/-- C2 amended: the same-table rejection fires exactly when the two
selected tables agree on environment schema and table name; the
partition tokens play no role in the check. -/
theorem C2_same_table_ignores_partition :
    (∀ lt rt : TableRow,
      columnsEffect (some lt) (some rt) = ColumnsAction.clear ↔
        lt.env_schema = rt.env_schema ∧ lt.table_name = rt.table_name) ∧
    (∀ (lt rt : TableRow) (lp rp : String), jsTrim lp ≠ "" → jsTrim rp ≠ "" →
      (suggestEffect (some lt) (some rt) lp rp = SuggestAction.clear ↔
        lt.env_schema = rt.env_schema ∧ lt.table_name = rt.table_name)) := by
  constructor
  · intro lt rt
    by_cases h : lt.env_schema = rt.env_schema ∧ lt.table_name = rt.table_name <;>
      simp [columnsEffect, h]
  · intro lt rt lp rp h1 h2
    by_cases h : lt.env_schema = rt.env_schema ∧ lt.table_name = rt.table_name <;>
      simp [suggestEffect, h1, h2, h]

/-- Witness for C2's amended theorem at concrete inputs. -/
theorem C2_same_table_ignores_partition_witness :
    columnsEffect (some ⟨"dev", "t"⟩) (some ⟨"prod", "t"⟩) ≠ ColumnsAction.clear ∧
    suggestEffect (some ⟨"dev", "t"⟩) (some ⟨"prod", "t"⟩) "20260101" "20260101" ≠
      SuggestAction.clear := by
  constructor
  · intro hc
    exact absurd ((C2_same_table_ignores_partition.1 ⟨"dev", "t"⟩ ⟨"prod", "t"⟩).mp hc).1
      (by decide)
  · intro hc
    exact absurd ((C2_same_table_ignores_partition.2 ⟨"dev", "t"⟩ ⟨"prod", "t"⟩
      "20260101" "20260101" (by decide) (by decide)).mp hc).1 (by decide)

/-- C3 counterexample: submit-time sanitization of compare-column
pairs does not deduplicate — a duplicated pair survives twice, so a
distinct pair can appear more than once in the output. -/
theorem C3_counterexample :
    sanitizePairs [⟨"a", "a"⟩, ⟨"a", "a"⟩] = [⟨"a", "a"⟩, ⟨"a", "a"⟩] ∧
    (sanitizePairs [⟨"a", "a"⟩, ⟨"a", "a"⟩]).count ⟨"a", "a"⟩ = 2 :=
  ⟨by decide, by decide⟩

/-- C3 amended: sanitization trims both names of every pair and drops
exactly the pairs with an empty trimmed component, preserving the
order of the remaining pairs (it does not deduplicate); separately,
the auto-match merge keeps the existing pairs unchanged as a stable
first segment, appends the proposed pairs in their original relative
order, and never appends a pair whose `left:right` key is already
present. -/
theorem C3_sanitize_and_dedup :
    (∀ ps : List ColumnPair,
      sanitizePairs ps = (ps.map trimPair).filter fun q => q.left != "" && q.right != "") ∧
    (∀ prev pairs : List ColumnPair,
      (autoMatchMerge prev pairs).take prev.length = prev ∧
      ((autoMatchMerge prev pairs).drop prev.length).Sublist pairs ∧
      ∀ p ∈ pairs, pairKey p ∈ prev.map pairKey →
        p ∉ (autoMatchMerge prev pairs).drop prev.length) := by
  constructor
  · intro ps
    induction ps with
    | nil => rfl
    | cons p ps ih =>
      simp only [sanitizePairs] at ih ⊢
      rw [List.filterMap_cons]
      by_cases h1 : jsTrim p.left = ""
      · have hp : sanitizePair p = none := by simp [sanitizePair, h1]
        rw [hp, ih]
        simp [List.filter_cons, trimPair, h1]
      · by_cases h2 : jsTrim p.right = ""
        · have hp : sanitizePair p = none := by simp [sanitizePair, h2]
          rw [hp, ih]
          simp [List.filter_cons, trimPair, h2]
        · have hp : sanitizePair p = some (trimPair p) := by
            simp [sanitizePair, trimPair, h1, h2]
          rw [hp, ih]
          simp [List.filter_cons, trimPair, h1, h2]
  · intro prev pairs
    have hdef : autoMatchMerge prev pairs =
        prev ++ pairs.filter fun p => !((prev.map pairKey).contains (pairKey p)) := rfl
    refine ⟨?_, ?_, ?_⟩
    · rw [hdef, List.take_left]
    · rw [hdef, List.drop_left]
      exact List.filter_sublist _
    · intro p hp hkey hmem
      rw [hdef, List.drop_left] at hmem
      have hc := (List.mem_filter.mp hmem).2
      rw [Bool.not_eq_true'] at hc
      have hb : (prev.map pairKey).contains (pairKey p) = true :=
        List.elem_eq_true_of_mem hkey
      rw [hc] at hb
      cases hb

/-- Witness for C3's amended theorem at concrete inputs. -/
theorem C3_sanitize_and_dedup_witness :
    sanitizePairs [⟨" a ", "b"⟩, ⟨"", "c"⟩] = [⟨"a", "b"⟩] ∧
    ⟨"x", "y"⟩ ∉ (autoMatchMerge [⟨"x", "y"⟩] [⟨"x", "y"⟩, ⟨"z", "w"⟩]).drop 1 := by
  constructor
  · rw [C3_sanitize_and_dedup.1 [⟨" a ", "b"⟩, ⟨"", "c"⟩]]
    decide
  · exact (C3_sanitize_and_dedup.2 [⟨"x", "y"⟩] [⟨"x", "y"⟩, ⟨"z", "w"⟩]).2.2
      ⟨"x", "y"⟩ (by decide) (by decide)

/-- C4 counterexample: a request containing the join-key pair
`("a", "")`, whose right name is empty, is not rejected — the pair is
silently discarded and the remaining pair is submitted. -/
theorem C4_counterexample :
    handleSubmit (some ⟨"dev", "l"⟩) (some ⟨"prod", "r"⟩) "" ""
      [⟨"a", ""⟩, ⟨"b", "c"⟩] [] 50 =
    SubmitResult.submit
      { left_table := "l"
        right_table := "r"
        left_env_schema := "dev"
        right_env_schema := "prod"
        join_keys := ["b"]
        join_key_pairs := [⟨"b", "c"⟩]
        compare_column_pairs := none
        sample_limit := 50
        left_pt := none
        right_pt := none } := by decide

/-- C4 amended: join-key pairs with an empty left or right name after
trimming are silently dropped; as long as at least one sanitized pair
remains, the submission proceeds with exactly the sanitized pairs
(the request is rejected only when no pair survives). -/
theorem C4_empty_pairs_dropped (lt rt : TableRow) (lp rp : String)
    (jkp ccp : List ColumnPair) (sl : Int)
    (h : jkp.filterMap sanitizePair ≠ []) :
    handleSubmit (some lt) (some rt) lp rp jkp ccp sl =
      SubmitResult.submit
        { left_table := lt.table_name
          right_table := rt.table_name
          left_env_schema := lt.env_schema
          right_env_schema := rt.env_schema
          join_keys := (jkp.filterMap sanitizePair).map ColumnPair.left
          join_key_pairs := jkp.filterMap sanitizePair
          compare_column_pairs :=
            if ccp.filterMap sanitizePair = [] then none
            else some (ccp.filterMap sanitizePair)
          sample_limit := sl
          left_pt := if jsTrim lp = "" then none else some (jsTrim lp)
          right_pt := if jsTrim rp = "" then none else some (jsTrim rp) } := by
  simp [handleSubmit, h]

/-- Witness for C4's amended theorem at concrete inputs. -/
theorem C4_empty_pairs_dropped_witness :
    handleSubmit (some ⟨"dev", "l"⟩) (some ⟨"dev", "r"⟩) "" "" [⟨"a", ""⟩, ⟨"b", "c"⟩] [] 50 =
      SubmitResult.submit
        { left_table := "l"
          right_table := "r"
          left_env_schema := "dev"
          right_env_schema := "dev"
          join_keys := ["b"]
          join_key_pairs := [⟨"b", "c"⟩]
          compare_column_pairs := none
          sample_limit := 50
          left_pt := none
          right_pt := none } :=
  (C4_empty_pairs_dropped ⟨"dev", "l"⟩ ⟨"dev", "r"⟩ "" "" [⟨"a", ""⟩, ⟨"b", "c"⟩] [] 50
    (by decide)).trans (by decide)

/-- C5: the suggest-keys effect issues no request and clears the
candidate list whenever either partition token trims to empty, and
conversely a request is issued only with both trimmed tokens
non-empty (the issued payload carries the trimmed tokens). -/
theorem C5_suggest_skipped_without_pt :
    (∀ (lt rt : TableRow) (lp rp : String), jsTrim lp = "" ∨ jsTrim rp = "" →
      suggestEffect (some lt) (some rt) lp rp = SuggestAction.clear) ∧
    (∀ (ltO rtO : Option TableRow) (lp rp : String) (payload : SuggestKeysPayload),
      suggestEffect ltO rtO lp rp = SuggestAction.request payload →
        jsTrim lp ≠ "" ∧ jsTrim rp ≠ "" ∧ payload.left_pt = jsTrim lp ∧
          payload.right_pt = jsTrim rp) := by
  constructor
  · intro lt rt lp rp h
    simp [suggestEffect, h]
  · intro ltO rtO lp rp payload h
    cases ltO with
    | none => simp [suggestEffect] at h
    | some lt =>
      cases rtO with
      | none => simp [suggestEffect] at h
      | some rt =>
        by_cases h1 : jsTrim lp = "" ∨ jsTrim rp = ""
        · simp [suggestEffect, h1] at h
        · by_cases h2 : lt.env_schema = rt.env_schema ∧ lt.table_name = rt.table_name
          · simp [suggestEffect, h1, h2] at h
          · push_neg at h1
            simp [suggestEffect, h1.1, h1.2, h2] at h
            subst h
            exact ⟨h1.1, h1.2, rfl, rfl⟩

/-- Witness for C5 at concrete inputs. -/
theorem C5_suggest_skipped_without_pt_witness :
    suggestEffect (some ⟨"dev", "a"⟩) (some ⟨"prod", "b"⟩) "   " "20260101" =
      SuggestAction.clear :=
  C5_suggest_skipped_without_pt.1 ⟨"dev", "a"⟩ ⟨"prod", "b"⟩ "   " "20260101"
    (Or.inl (by decide))

/-- C6: the run pages install their 2000 ms reload interval exactly
while some listed run is pending, and install no interval once every
listed run is in a terminal state. -/
theorem C6_polling (runs : List CompareRun) :
    (pollIntervalMs runs = some 2000 ↔ ∃ r ∈ runs, r.status = RunStatus.pending) ∧
    (pollIntervalMs runs = none ↔ ∀ r ∈ runs, r.status ≠ RunStatus.pending) := by
  have hiff : hasPending runs = true ↔ ∃ r ∈ runs, r.status = RunStatus.pending := by
    simp [hasPending, List.any_eq_true]
  by_cases h : hasPending runs
  · obtain ⟨r, hr, hs⟩ := hiff.mp h
    refine ⟨iff_of_true (by simp [pollIntervalMs, h]) ⟨r, hr, hs⟩,
      iff_of_false (by simp [pollIntervalMs, h]) ?_⟩
    intro hall
    exact hall r hr hs
  · have hnp : ∀ r ∈ runs, r.status ≠ RunStatus.pending :=
      fun r hr hs => h (hiff.mpr ⟨r, hr, hs⟩)
    refine ⟨iff_of_false (by simp [pollIntervalMs, h]) ?_,
      iff_of_true (by simp [pollIntervalMs, h]) hnp⟩
    intro hex
    exact h (hiff.mpr hex)

/-- Witness for C6 at concrete inputs. -/
theorem C6_polling_witness :
    pollIntervalMs [⟨1, RunStatus.pending⟩, ⟨2, RunStatus.completed⟩] = some 2000 ∧
    pollIntervalMs [⟨1, RunStatus.completed⟩, ⟨2, RunStatus.error⟩] = none := by
  constructor
  · exact (C6_polling [⟨1, RunStatus.pending⟩, ⟨2, RunStatus.completed⟩]).1.mpr
      ⟨⟨1, RunStatus.pending⟩, by decide, rfl⟩
  · exact (C6_polling [⟨1, RunStatus.completed⟩, ⟨2, RunStatus.error⟩]).2.mpr
      (by decide)

/-- C7: on a detail list whose entries all carry a `loc` path and a
message, the client's displayed summary equals the composition the
specification describes: per entry the `loc` elements other than
`body` joined by `.`, rendered `field: message` (message alone when
the path is empty), all joined by `; `. -/
theorem C7_error_summary (entries : List (List String × String)) :
    renderDetail (entries.map fun e => ⟨some e.1, some e.2⟩) = claimedSummary entries := by
  unfold renderDetail claimedSummary
  rw [List.map_map]
  have hfun : (renderDetailEntry ∘ fun e : List String × String =>
      ({ loc := some e.1, msg := some e.2 } : DetailEntry)) =
      fun e : List String × String =>
        let f := fieldPath e.1
        if f = "" then e.2 else f ++ ": " ++ e.2 := by
    funext e
    by_cases h : fieldPath e.1 = ""
    · simp [Function.comp, renderDetailEntry, h]
    · simp [Function.comp, renderDetailEntry, h]
  rw [hfun]

/-- C8: an entry without a `:` separator is rendered as the
self-paired column, and an entry of the form `l:r` is rendered as the
pair `(l, r)`. -/
theorem C8_parse_column_pairs :
    (∀ s : String, jsIncludes ':' s = false → parseColumnPairs [s] = [⟨s, s⟩]) ∧
    parseColumnPairs ["l:r"] = [⟨"l", "r"⟩] ∧
    parseColumnPairs ["id", "a:b"] = [⟨"id", "id"⟩, ⟨"a", "b"⟩] := by
  refine ⟨?_, by decide, by decide⟩
  intro s h
  simp [parseColumnPairs, parseColumnPair, h]

/-- Witness for C8 at a concrete input. -/
theorem C8_parse_column_pairs_witness :
    parseColumnPairs ["user_id"] = [⟨"user_id", "user_id"⟩] :=
  C8_parse_column_pairs.1 "user_id" (by decide)

/-- C9 counterexample: the submit handler forwards the sample limit
unclamped, so a submitted comparison can carry a `sample_limit` of
2000, outside the declared [1, 1000] range. -/
theorem C9_counterexample :
    handleSubmit (some ⟨"dev", "l"⟩) (some ⟨"prod", "r"⟩) "" "" [⟨"a", "b"⟩] [] 2000 =
      SubmitResult.submit
        { left_table := "l"
          right_table := "r"
          left_env_schema := "dev"
          right_env_schema := "prod"
          join_keys := ["a"]
          join_key_pairs := [⟨"a", "b"⟩]
          compare_column_pairs := none
          sample_limit := 2000
          left_pt := none
          right_pt := none } ∧
    ¬(sampleLimitInputMin ≤ (2000 : Int) ∧ (2000 : Int) ≤ sampleLimitInputMax) :=
  ⟨by decide, by decide⟩

/-- C9 amended: the sample limit starts at 50 and the input element
declares min 1 and max 1000, but the submit handler does not clamp:
every submitted payload carries exactly the current state value, in
or out of range. -/
theorem C9_sample_limit_passthrough :
    initialSampleLimit = 50 ∧ sampleLimitInputMin = 1 ∧ sampleLimitInputMax = 1000 ∧
    (∀ (lt rt : TableRow) (lp rp : String) (jkp ccp : List ColumnPair) (sl : Int)
       (payload : ComparePayload),
      handleSubmit (some lt) (some rt) lp rp jkp ccp sl = SubmitResult.submit payload →
        payload.sample_limit = sl) := by
  refine ⟨rfl, rfl, rfl, ?_⟩
  intro lt rt lp rp jkp ccp sl payload h
  by_cases hv : jkp.filterMap sanitizePair = []
  · simp [handleSubmit, hv] at h
  · simp [handleSubmit, hv] at h
    subst h
    rfl

/-- Witness for C9's amended theorem at concrete inputs. -/
theorem C9_sample_limit_passthrough_witness :
    ({ left_table := "l", right_table := "r", left_env_schema := "dev",
       right_env_schema := "prod", join_keys := ["a"], join_key_pairs := [⟨"a", "b"⟩],
       compare_column_pairs := none, sample_limit := 2000, left_pt := none,
       right_pt := none } : ComparePayload).sample_limit = 2000 :=
  C9_sample_limit_passthrough.2.2.2 ⟨"dev", "l"⟩ ⟨"prod", "r"⟩ "" "" [⟨"a", "b"⟩] [] 2000
    _ (by decide)

/-- C10: the POST helper is total over response bodies — the result
always carries the response's `ok` flag and a structured `json`: the
empty object for an empty body, the parsed body when parsing
succeeds, and otherwise a `detail` fallback that is non-empty, equals
the fixed message on an ok response, and incorporates the status
code, status text and the body truncated to 200 characters on a
non-ok response. -/
theorem C10_api_total (parseOk : String → Bool) (res : HttpResponse) :
    (api parseOk res).ok = res.ok ∧
    (res.body = "" → (api parseOk res).json = ApiJson.emptyObj) ∧
    (res.body ≠ "" → parseOk res.body = true →
      (api parseOk res).json = ApiJson.parsed res.body) ∧
    (res.body ≠ "" → parseOk res.body = false →
      ∃ d, (api parseOk res).json = ApiJson.detailObj d ∧ d ≠ "" ∧
        (res.ok = true → d = "Invalid response from server") ∧
        (res.ok = false →
          d = toString res.status ++ " " ++ res.statusText ++ " - " ++ jsSlice res.body 200)) := by
  refine ⟨rfl, ?_, ?_, ?_⟩
  · intro h
    simp [api, h]
  · intro h1 h2
    simp [api, h1, h2]
  · intro h1 h2
    by_cases hok : res.ok
    · refine ⟨"Invalid response from server", by simp [api, h1, h2, hok], by decide, fun _ => rfl, ?_⟩
      intro hc
      rw [hok] at hc
      cases hc
    · refine ⟨toString res.status ++ " " ++ res.statusText ++ " - " ++ jsSlice res.body 200,
        by simp [api, h1, h2, hok], ?_, ?_, fun _ => rfl⟩
      · intro hd
        have := congrArg String.length hd
        simp [String.length_append, show (" " : String).length = 1 by decide,
          show (" - " : String).length = 3 by decide] at this
      · intro hc
        exact absurd hc (by simp [hok])

/-- Witness for C10 at a concrete response. -/
theorem C10_api_total_witness :
    (api (fun _ => false) ⟨true, 200, "OK", "not-json"⟩).json =
      ApiJson.detailObj "Invalid response from server" := by
  obtain ⟨-, -, -, h4⟩ := C10_api_total (fun _ => false) ⟨true, 200, "OK", "not-json"⟩
  obtain ⟨d, hd, -, hok, -⟩ := h4 (by decide) rfl
  rw [hd, hok rfl]
